import Mathlib

/-!
Verification of the mcgravity MCP aggregator against its specification.

The development shallowly embeds the TypeScript sources:
* `src/bun-sse-transport.ts` (`BunSSEServerTransport`) as a pure state
  machine whose operations return the new state together with a trace of
  observable actions (SSE writes, callback firings, HTTP responses);
* `src/server.ts` (`McGravityServer` routes) as functions over the
  sessions map;
* `src/server-composer.ts` (`McpServerComposer`, most recent revision:
  descriptor registry, connection-per-invocation handlers) as functions
  over a registry of upstream descriptors plus an upstream "world" that
  supplies connection outcomes and RPC results;
* `src/index.ts` (CLI parsing and `main`) as pure decision functions.
-/

namespace Mcg

/-- JSON values, the shape of JavaScript data crossing the embedded
interfaces (request bodies, JSON-RPC messages, serialized responses). -/
inductive Json where
  | null : Json
  | bool (b : Bool) : Json
  | num (n : Int) : Json
  | str (s : String) : Json
  | arr (elems : List Json) : Json
  | obj (fields : List (String × Json)) : Json

/-- Member lookup on a JSON object (`undefined` is `none`); non-objects
have no members. -/
def Json.getField : Json → String → Option Json
  | .obj fields, k =>
    match fields.find? (fun p => p.1 == k) with
    | some p => some p.2
    | none => none
  | _, _ => none

/-- JavaScript `String.prototype.includes`: some suffix of `s` starts
with `pat`. -/
def strIncludes (s pat : String) : Bool :=
  s.toList.tails.any (fun t => pat.toList.isPrefixOf t)

/-- Characters JavaScript `encodeURI` leaves unescaped: ASCII letters,
digits, and the unreserved/reserved marks (codes listed numerically). -/
def isEncodeURIKept (c : Char) : Bool :=
  (65 ≤ c.toNat && c.toNat ≤ 90) ||
  (97 ≤ c.toNat && c.toNat ≤ 122) ||
  (48 ≤ c.toNat && c.toNat ≤ 57) ||
  [59, 44, 47, 63, 58, 64, 38, 61, 43, 36, 45, 95, 46, 33, 126, 42, 39, 40, 41, 35].contains c.toNat

/-- The UTF-8 bytes of a character, as numbers. -/
def utf8Bytes (c : Char) : List Nat :=
  let n := c.toNat
  if n < 128 then [n]
  else if n < 2048 then [192 + n / 64, 128 + n % 64]
  else if n < 65536 then [224 + n / 4096, 128 + (n / 64) % 64, 128 + n % 64]
  else [240 + n / 262144, 128 + (n / 4096) % 64, 128 + (n / 64) % 64, 128 + n % 64]

/-- Upper-case hexadecimal digit. -/
def hexChar (n : Nat) : Char :=
  if n < 10 then Char.ofNat (48 + n) else Char.ofNat (55 + n)

/-- JavaScript `encodeURI`: kept characters pass through, all others are
percent-encoded byte by byte in UTF-8. -/
def encodeURI (s : String) : String :=
  String.mk (s.toList.flatMap (fun c =>
    if isEncodeURIKept c then [c]
    else (utf8Bytes c).flatMap (fun b => ['%', hexChar (b / 16), hexChar (b % 16)])))

/-- Is a JSON value a legal JSON-RPC id (string or number)? -/
def isRpcId : Option Json → Bool
  | some (.str _) => true
  | some (.num _) => true
  | _ => false

/-- Is a JSON value a legal JSON-RPC error member (`code` number,
`message` string)? -/
def isRpcErrorObj : Option Json → Bool
  | some e =>
    (match e.getField "code" with | some (.num _) => true | _ => false) &&
    (match e.getField "message" with | some (.str _) => true | _ => false)
  | none => false

/-- Models `JSONRPCMessageSchema` of the MCP SDK (an external dependency
of `bun-sse-transport.ts`): a JSON-RPC 2.0 request/notification (string
`method`), successful response (`id` and `result`), or error response
(`id` and a well-formed `error`), all with `jsonrpc = "2.0"`. -/
def isJSONRPCMessage (j : Json) : Bool :=
  (match j.getField "jsonrpc" with | some (.str v) => v == "2.0" | _ => false) &&
  ((match j.getField "method" with | some (.str _) => true | _ => false) ||
   (isRpcId (j.getField "id") && (j.getField "result").isSome) ||
   (isRpcId (j.getField "id") && isRpcErrorObj (j.getField "error")))

/-- `JSONRPCMessageSchema.safeParse`: on success the parsed data is the
message itself. -/
def safeParseJSONRPC (j : Json) : Option Json :=
  if isJSONRPCMessage j then some j else none

/-- A plain HTTP response (`new Response(body, {status})`). -/
structure HttpResp where
  status : Nat
  body : String
deriving DecidableEq

/-- The `Response` object `createResponse` builds for the SSE stream;
`rid` is its object identity (allocation number). -/
structure SSEResponse where
  rid : Nat
  headers : List (String × String)
deriving DecidableEq

/-- The headers of the SSE response, from `createResponse`. -/
def sseHeaders : List (String × String) :=
  [("Content-Type", "text/event-stream"),
   ("Cache-Control", "no-cache, no-transform"),
   ("Connection", "keep-alive")]

/-- An SSE event written to the stream: `event: endpoint\ndata: <data>`
or `event: message\ndata: <JSON.stringify m>`. -/
inductive SSEEvent where
  | endpointEv (data : String)
  | messageEv (m : Json)

/-- Observable actions of a transport operation: stream writes, closing
the stream writer, and the `onmessage` / `onclose` / `onerror`
callbacks. `retResponse` records the `Response` a `createResponse` call
returned. -/
inductive TAct where
  | write (e : SSEEvent)
  | writerClose
  | cbMessage (m : Json)
  | cbClose
  | cbError (msg : String)
  | retResponse (r : SSEResponse)

/-- State of a `BunSSEServerTransport`: the session id and endpoint are
fixed at construction; `hasWriter`, `responseObj` and `sseResponse`
mirror the `_writer`, `_responseObj` and `_sseResponse` fields. -/
structure Transport where
  sessionId : String
  endpoint : String
  hasWriter : Bool
  responseObj : Option SSEResponse
  sseResponse : Option SSEResponse
deriving DecidableEq

/-- `new BunSSEServerTransport(endpoint)` with the generated UUID. -/
def Transport.new (endpoint sessionId : String) : Transport :=
  ⟨sessionId, endpoint, false, none, none⟩

/-- The data of the initial `endpoint` event:
`encodeURI(endpoint) ++ "?sessionId=" ++ sessionId`. -/
def Transport.endpointData (t : Transport) : String :=
  encodeURI t.endpoint ++ "?sessionId=" ++ t.sessionId

/-- `createResponse()`: if a response object already exists it is
returned unchanged with no writes; otherwise a writer is taken, the
`endpoint` event is written, and a fresh `Response` (identity `fresh`)
is stored and returned. Returns (state, next fresh id, writes, result). -/
def Transport.createResponse (t : Transport) (fresh : Nat) :
    Transport × Nat × List TAct × SSEResponse :=
  match t.responseObj with
  | some r => (t, fresh, [], r)
  | none =>
    let r : SSEResponse := ⟨fresh, sseHeaders⟩
    ({ t with hasWriter := true, responseObj := some r },
     fresh + 1,
     [TAct.write (SSEEvent.endpointEv t.endpointData)],
     r)

/-- `start()`: creates the response if absent, then marks the SSE
connection established (`_sseResponse := _responseObj`). -/
def Transport.start (t : Transport) (fresh : Nat) :
    Transport × Nat × List TAct :=
  match t.responseObj with
  | none =>
    let (t1, f1, acts, _) := t.createResponse fresh
    ({ t1 with sseResponse := t1.responseObj }, f1, acts)
  | some _ => ({ t with sseResponse := t.responseObj }, fresh, [])

/-- An inbound POST request as the transport sees it: the
`content-type` header and the JSON body (`none` when `req.json()`
fails). -/
structure PostRequest where
  contentType : Option String
  body : Option Json

/-- The content-type test of `handlePostMessage`:
`contentTypeHeader && contentTypeHeader.includes('application/json')`. -/
def ctOk (req : PostRequest) : Bool :=
  match req.contentType with
  | none => false
  | some ct => strIncludes ct "application/json"

/-- `handleMessage(message)`: validates against the JSON-RPC schema;
fires `onmessage` on success, `onerror` (and rethrows) on failure. -/
def Transport.handleMessage (m : Json) : List TAct × Bool :=
  match safeParseJSONRPC m with
  | some parsed => ([TAct.cbMessage parsed], true)
  | none => ([TAct.cbError "Invalid JSON-RPC message"], false)

/-- `handlePostMessage(req)`: 500 when the SSE connection is not
established; otherwise the content type must include
`application/json` and the body must parse and validate, else the
thrown error is caught, `onerror` fires and 400 is returned; on
success 202 `Accepted`. (A validation failure fires `onerror` twice:
once in `handleMessage`'s catch and once in `handlePostMessage`'s.) -/
def Transport.handlePostMessage (t : Transport) (req : PostRequest) :
    Transport × List TAct × HttpResp :=
  match t.sseResponse with
  | none => (t, [], ⟨500, "SSE connection not established"⟩)
  | some _ =>
    if !ctOk req then
      (t, [TAct.cbError "Unsupported content-type"],
       ⟨400, "Error: Unsupported content-type"⟩)
    else
      match req.body with
      | none =>
        (t, [TAct.cbError "JSON parse error"], ⟨400, "Error: JSON parse error"⟩)
      | some m =>
        match Transport.handleMessage m with
        | (acts, true) => (t, acts, ⟨202, "Accepted"⟩)
        | (acts, false) =>
          (t, acts ++ [TAct.cbError "Invalid JSON-RPC message"],
           ⟨400, "Error: Invalid JSON-RPC message"⟩)

/-- `send(message)`: writes a `message` event when the writer exists,
otherwise throws `Not connected` (no write). -/
def Transport.send (t : Transport) (m : Json) :
    Transport × List TAct × Option String :=
  if t.hasWriter then (t, [TAct.write (SSEEvent.messageEv m)], none)
  else (t, [], some "Not connected")

/-- `close()`: closes the writer when one exists, clears all three
fields, and unconditionally fires `onclose`. -/
def Transport.close (t : Transport) : Transport × List TAct :=
  let wacts := if t.hasWriter then [TAct.writerClose] else []
  (⟨t.sessionId, t.endpoint, false, none, none⟩, wacts ++ [TAct.cbClose])

/-- One transport operation, for running call sequences. -/
inductive TOp where
  | createResponse
  | start
  | post (req : PostRequest)
  | send (m : Json)
  | close

/-- Run one operation; `createResponse` records its returned response
in the trace. -/
def stepOp (t : Transport) (fresh : Nat) : TOp → Transport × Nat × List TAct
  | .createResponse =>
    let (t1, f1, acts, r) := t.createResponse fresh
    (t1, f1, acts ++ [TAct.retResponse r])
  | .start => t.start fresh
  | .post req =>
    let (t1, acts, _) := t.handlePostMessage req
    (t1, fresh, acts)
  | .send m =>
    let (t1, acts, _) := t.send m
    (t1, fresh, acts)
  | .close =>
    let (t1, acts) := t.close
    (t1, fresh, acts)

/-- Run a sequence of operations, concatenating the traces. -/
def runOps (t : Transport) (fresh : Nat) : List TOp → Transport × Nat × List TAct
  | [] => (t, fresh, [])
  | op :: rest =>
    let (t1, f1, acts) := stepOp t fresh op
    let (t2, f2, acts2) := runOps t1 f1 rest
    (t2, f2, acts ++ acts2)

/-- The SSE events a trace wrote, in order. -/
def writesOf (acts : List TAct) : List SSEEvent :=
  acts.filterMap (fun a => match a with | .write e => some e | _ => none)

/-- The responses `createResponse` calls in a trace returned, in order. -/
def respsOf (acts : List TAct) : List SSEResponse :=
  acts.filterMap (fun a => match a with | .retResponse r => some r | _ => none)

/-- How many `endpoint` events a trace wrote. -/
def endpointWrites (acts : List TAct) : Nat :=
  (writesOf acts).countP (fun e => match e with | .endpointEv _ => true | _ => false)

/-- How many times `onclose` fired in a trace. -/
def oncloseCount (acts : List TAct) : Nat :=
  acts.countP (fun a => match a with | .cbClose => true | _ => false)

/-- How many times the stream writer was closed in a trace. -/
def writerCloseCount (acts : List TAct) : Nat :=
  acts.countP (fun a => match a with | .writerClose => true | _ => false)

/-- How many times `onerror` fired in a trace. -/
def cbErrorCount (acts : List TAct) : Nat :=
  acts.countP (fun a => match a with | .cbError _ => true | _ => false)

/-- Operations that only create or re-request the SSE response. -/
def isCreateOrStart : TOp → Bool
  | .createResponse => true
  | .start => true
  | _ => false

/-! ## Maps

JavaScript `Map` / plain-object maps as association lists in insertion
order: `set` replaces in place or appends, `get` finds, `delete`
removes. -/

/-- `map.get(k)` / `map[k]`. -/
def mapGet : List (String × α) → String → Option α
  | [], _ => none
  | p :: rest, k => if p.1 == k then some p.2 else mapGet rest k

/-- `map.set(k, v)` / `map[k] = v`: replace in place (keys are unique),
else append. -/
def mapSet : List (String × α) → String → α → List (String × α)
  | [], k, v => [(k, v)]
  | p :: rest, k, v => if p.1 == k then (k, v) :: rest else p :: mapSet rest k v

/-- `map.delete(k)` / `delete map[k]`. -/
def mapDelete (m : List (String × α)) (k : String) : List (String × α) :=
  m.filter (fun p => p.1 != k)

/-! ## HTTP frontend (`src/server.ts`)

`McGravityServer.start` routes. The sessions map `transports` keys
transports by session id; the `/sessions` route answers POSTs. -/

/-- The sessions map (`this.transports`). -/
abbrev SessionsMap := List (String × Transport)

/-- The `/sessions` route's own liveness test: JavaScript
`!sessionId || !this.transports[sessionId]` — a missing or empty
(falsy) `sessionId`, or one not in the map, is not live. -/
def liveTransport (m : SessionsMap) : Option String → Option Transport
  | none => none
  | some sid => if sid == "" then none else mapGet m sid

/-- The `/sessions` route: 400 `Invalid session ID` unless the query
names a live transport, else delegate to `handlePostMessage`. -/
def routeSessions (m : SessionsMap) : Option String → PostRequest →
    SessionsMap × List TAct × HttpResp
  | none, _ => (m, [], ⟨400, "Invalid session ID"⟩)
  | some sid, req =>
    if sid == "" then (m, [], ⟨400, "Invalid session ID"⟩)
    else
      match mapGet m sid with
      | none => (m, [], ⟨400, "Invalid session ID"⟩)
      | some t =>
        let (t1, acts, resp) := t.handlePostMessage req
        (mapSet m sid t1, acts, resp)

/-! ## Composer (`src/server-composer.ts`, most recent revision)

`McpServerComposer`: `targetClients` maps the stringified upstream URL
to a descriptor `{clientInfo, url}`; capability handlers installed on
the exposed server capture that key and open a fresh upstream client
per invocation. -/

/-- MCP `Implementation` (client/server info). -/
structure Implementation where
  name : String
  version : String
  description : String
deriving DecidableEq

/-- A `targetClients` entry: `{ clientInfo, url }` (the registry holds
descriptors, never live connections). The URL is kept stringified. -/
structure TargetEntry where
  clientInfo : Implementation
  url : String
deriving DecidableEq

/-- The capability registry `targetClients`. -/
abbrev Registry := List (String × TargetEntry)

/-- An upstream tool as listed by `listTools`. -/
structure ToolSpec where
  name : String
  description : Option String
  inputSchema : Json

/-- An upstream resource as listed by `listResources`. -/
structure ResourceSpec where
  name : String
  uri : String
  description : Option String
  mimeType : Option String

/-- An upstream prompt as listed by `listPrompts`. -/
structure PromptSpec where
  name : String
  description : Option String
  argsSchema : Json

/-- A tool handler installed by `composeTools` on the exposed server:
it captures the upstream key `name` in its closure. -/
structure RegisteredTool where
  toolName : String
  description : String
  upstreamKey : String
deriving DecidableEq

/-- A resource handler installed by `composeResources`. -/
structure RegisteredResource where
  resourceName : String
  uri : String
  upstreamKey : String
deriving DecidableEq

/-- A prompt handler installed by `composePrompts`. -/
structure RegisteredPrompt where
  promptName : String
  description : String
  upstreamKey : String
deriving DecidableEq

/-- The capabilities installed on the exposed `McpServer`. -/
structure ServerCaps where
  tools : List RegisteredTool
  resources : List RegisteredResource
  prompts : List RegisteredPrompt
deriving DecidableEq

/-- `composeTools(tools, name)`: installs one handler per tool,
capturing `name`. -/
def composeTools (caps : ServerCaps) (tools : List ToolSpec) (name : String) : ServerCaps :=
  { caps with tools := caps.tools ++
      tools.map (fun tl => ⟨tl.name, tl.description.getD "", name⟩) }

/-- `composeResources(resources, name)`. -/
def composeResources (caps : ServerCaps) (resources : List ResourceSpec) (name : String) :
    ServerCaps :=
  { caps with resources := caps.resources ++
      resources.map (fun r => ⟨r.name, r.uri, name⟩) }

/-- `composePrompts(prompts, name)`. -/
def composePrompts (caps : ServerCaps) (prompts : List PromptSpec) (name : String) :
    ServerCaps :=
  { caps with prompts := caps.prompts ++
      prompts.map (fun p => ⟨p.name, p.description.getD "", name⟩) }

/-- Actions a capability handler performs against upstreams; `client`
is the identity of the `new Client(...)` it allocated. -/
inductive UpAct where
  | connect (client : Nat) (url : String)
  | callToolRpc (client : Nat) (tool : String) (args : Json)
  | readResourceRpc (client : Nat) (uri : String)
  | getPromptRpc (client : Nat) (prompt : String) (args : Json)
  | closeClient (client : Nat)

/-- Is an action one of the three RPCs? -/
def UpAct.isRpc : UpAct → Bool
  | .callToolRpc .. => true
  | .readResourceRpc .. => true
  | .getPromptRpc .. => true
  | _ => false

/-- The client id an action touches. -/
def UpAct.client : UpAct → Nat
  | .connect c _ => c
  | .callToolRpc c _ _ => c
  | .readResourceRpc c _ => c
  | .getPromptRpc c _ _ => c
  | .closeClient c => c

/-- Behaviour of the upstream servers: connection outcomes per attempt
and RPC results, plus the capability listings used at registration. -/
structure UpstreamWorld where
  connectOk : String → Nat → Bool
  tools : String → List ToolSpec
  resources : String → List ResourceSpec
  prompts : String → List PromptSpec
  callToolResult : String → String → Json → Json
  readResourceResult : String → String → Json
  getPromptResult : String → String → Json → Json

/-- The tool handler body installed by `composeTools`: look the
captured key up in `targetClients`; if absent throw
`Client for <key> not found`; otherwise open a fresh client against the
descriptor's URL, issue one `callTool`, close the client, return the
upstream result. `fresh` is the next client identity. -/
def dispatchTool (reg : Registry) (fresh : Nat) (w : UpstreamWorld)
    (capturedKey toolName : String) (args : Json) :
    Registry × Nat × Except String (List UpAct × Json) :=
  match mapGet reg capturedKey with
  | none => (reg, fresh, .error ("Client for " ++ capturedKey ++ " not found"))
  | some item =>
    (reg, fresh + 1,
     .ok ([.connect fresh item.url, .callToolRpc fresh toolName args, .closeClient fresh],
          w.callToolResult item.url toolName args))

/-- The resource handler body installed by `composeResources`
(`readResource` on a fresh client). -/
def dispatchResource (reg : Registry) (fresh : Nat) (w : UpstreamWorld)
    (capturedKey uri : String) :
    Registry × Nat × Except String (List UpAct × Json) :=
  match mapGet reg capturedKey with
  | none => (reg, fresh, .error ("Client for " ++ capturedKey ++ " not found"))
  | some item =>
    (reg, fresh + 1,
     .ok ([.connect fresh item.url, .readResourceRpc fresh uri, .closeClient fresh],
          w.readResourceResult item.url uri))

/-- The prompt handler body installed by `composePrompts`
(`getPrompt` on a fresh client). -/
def dispatchPrompt (reg : Registry) (fresh : Nat) (w : UpstreamWorld)
    (capturedKey promptName : String) (args : Json) :
    Registry × Nat × Except String (List UpAct × Json) :=
  match mapGet reg capturedKey with
  | none => (reg, fresh, .error ("Client for " ++ capturedKey ++ " not found"))
  | some item =>
    (reg, fresh + 1,
     .ok ([.connect fresh item.url, .getPromptRpc fresh promptName args, .closeClient fresh],
          w.getPromptResult item.url promptName args))

/-- Composer state: the registry plus the capabilities installed on
the exposed server (the latter are only ever added to). -/
structure ComposerState where
  targetClients : Registry
  caps : ServerCaps
deriving DecidableEq

/-- An invocation of `addTargetServer(url, clientInfo, skipRegister)`. -/
structure AddTargetCall where
  url : String
  clientInfo : Implementation
  skipRegister : Bool
deriving DecidableEq

/-- The closure `handleTargetServerClose` returns, run on a composer
state: `targetClients.delete(name)`, then immediately
`addTargetServer(targetServerUrl, clientInfo, true)` — there is no
delay in the closure itself; the 10-second `setTimeout` sits between
failed connect attempts inside `addTargetServer`. The returned value
records that immediate invocation. -/
def handleTargetServerCloseRun (st : ComposerState) (name url : String)
    (info : Implementation) : ComposerState × AddTargetCall :=
  ({ st with targetClients := mapDelete st.targetClients name },
   ⟨url, info, true⟩)

/-- The `targetClient` record `addTargetServer` allocates:
`oncloseHandler` is the close handler attached to it (the current
revision attaches none), `closed` whether the composer closed it. -/
structure UpstreamClient where
  cid : Nat
  url : String
  clientInfo : Implementation
  oncloseHandler : Option (String × String × Implementation)
  closed : Bool
deriving DecidableEq

/-- `addTargetServer` after a successful `connect` (most recent
revision): insert the descriptor keyed by the stringified URL; if
`skipRegister`, return early (the enumeration client stays open and no
handler was attached); otherwise register tools, resources and prompts
and close the enumeration client. No `onclose`/`onerror` handler is
ever attached to `targetClient`. -/
def addTargetServerConnected (st : ComposerState) (w : UpstreamWorld) (cid : Nat)
    (url : String) (info : Implementation) (skipRegister : Bool) :
    ComposerState × UpstreamClient :=
  let name := url
  let st1 := { st with targetClients := mapSet st.targetClients name ⟨info, url⟩ }
  let client : UpstreamClient := ⟨cid, url, info, none, false⟩
  if skipRegister then (st1, client)
  else
    let caps1 := composeTools st1.caps (w.tools url) name
    let caps2 := composeResources caps1 (w.resources url) name
    let caps3 := composePrompts caps2 (w.prompts url) name
    ({ st1 with caps := caps3 }, { client with closed := true })

/-- Delivery of a session-close event for an upstream client: runs the
attached close handler, if any; yields the `addTargetServer` call the
handler issues (or `none` when no handler is attached). -/
def deliverClose (st : ComposerState) (c : UpstreamClient) :
    ComposerState × Option AddTargetCall :=
  match c.oncloseHandler with
  | none => (st, none)
  | some (name, url, info) =>
    let (st1, call) := handleTargetServerCloseRun st name url info
    (st1, some call)

/-! ## Startup timeline (`addTargetServer` retry loop, `loadTargets`,
`main`)

Connection attempts are numbered per upstream; a failed attempt is
retried after 10000 ms (`setTimeout`). Virtual time in milliseconds;
a successful attempt itself takes no model time. `loadTargets` awaits
each upstream in order, and `main` awaits `loadTargets` before calling
`server.start()` (which binds the HTTP listener). -/

/-- A timeline event with its virtual time in ms. -/
inductive MainEv where
  | connectAttempt (url : String) (attempt : Nat) (time : Nat)
  | connected (url : String) (time : Nat)
  | listenBound (time : Nat)
deriving DecidableEq

/-- The retry loop of `addTargetServer` for one upstream, starting at
attempt `a` and time `t0 + 10000 * a`: events of each attempt, and the
completion time when some attempt within `fuel` succeeds. -/
def addTargetServerTimeline (w : UpstreamWorld) (url : String) (t0 : Nat) :
    Nat → Nat → List MainEv × Option Nat
  | _, 0 => ([], none)
  | a, fuel + 1 =>
    let tA := t0 + 10000 * a
    if w.connectOk url a then
      ([MainEv.connectAttempt url a tA, MainEv.connected url tA], some tA)
    else
      let (evs, done) := addTargetServerTimeline w url t0 (a + 1) fuel
      (MainEv.connectAttempt url a tA :: evs, done)

/-- `loadTargets(targetServers)`: awaits `addTargetServer` for each
upstream in order, so each upstream starts only when the previous one
has finished (including all its retries). -/
def loadTargetsTimeline (w : UpstreamWorld) (fuel : Nat) :
    List String → Nat → List MainEv × Option Nat
  | [], t0 => ([], some t0)
  | url :: rest, t0 =>
    match addTargetServerTimeline w url t0 0 fuel with
    | (evs, none) => (evs, none)
    | (evs, some t1) =>
      let (evs2, done) := loadTargetsTimeline w fuel rest t1
      (evs ++ evs2, done)

/-- `main`: `await server.loadTargets(...)` then `server.start()`,
which binds the HTTP listener. -/
def mainTimeline (w : UpstreamWorld) (fuel : Nat) (urls : List String) :
    List MainEv × Option Nat :=
  match loadTargetsTimeline w fuel urls 0 with
  | (evs, none) => (evs, none)
  | (evs, some t1) => (evs ++ [MainEv.listenBound t1], some t1)

/-! ## `/api/list-targets` (`src/server.ts` with
`McpServerComposer.listTargetClients`) -/

/-- `listTargetClients()`: `Array.from(this.targetClients.values())`. -/
def listTargetClients (reg : Registry) : List TargetEntry :=
  reg.map (fun p => p.2)

/-- `JSON.stringify` of an `Implementation`, member order as declared. -/
def Implementation.toJson (i : Implementation) : Json :=
  .obj [("name", .str i.name), ("version", .str i.version),
        ("description", .str i.description)]

/-- `JSON.stringify` of a registry entry `{ clientInfo, url }`; the
`URL` object serializes to its href string. -/
def TargetEntry.toJson (e : TargetEntry) : Json :=
  .obj [("clientInfo", e.clientInfo.toJson), ("url", .str e.url)]

/-- An HTTP response whose body is serialized JSON. -/
structure JsonResp where
  status : Nat
  contentType : String
  bodyJson : Json

/-- The `/api/list-targets` route:
`new Response(JSON.stringify(listTargetClients()), {headers})` —
status 200 by default, body the serialized entry array. -/
def routeListTargets (reg : Registry) : JsonResp :=
  ⟨200, "application/json", .arr ((listTargetClients reg).map TargetEntry.toJson)⟩

/-! ## CLI (`src/index.ts`) -/

/-- The command line as `parseArgs` hands it over: each option either
given or absent (then `parseArgs` fills its declared default), plus
positionals. -/
structure CliArgs where
  host? : Option String := none
  port? : Option String := none
  config? : Option String := none
  help : Bool := false
  mcpVersion? : Option String := none
  mcpName? : Option String := none
  positionals : List String := []

/-- JavaScript `a || b` on strings (empty is falsy). -/
def jsOr (v d : String) : String :=
  if v == "" then d else v

/-- JavaScript `parseInt(s)`: optional whitespace and sign, then the
longest digit prefix; `none` is `NaN`. -/
def jsParseInt (s : String) : Option Int :=
  let cs := s.toList.dropWhile (fun c => c == ' ' || c == '\t' || c == '\n' || c == '\r')
  let signed : Int × List Char :=
    match cs with
    | '-' :: rest => (-1, rest)
    | '+' :: rest => (1, rest)
    | _ => (1, cs)
  let digits := signed.2.takeWhile (fun c => 48 ≤ c.toNat && c.toNat ≤ 57)
  if digits.isEmpty then none
  else some (signed.1 * Int.ofNat (digits.foldl (fun acc c => acc * 10 + (c.toNat - 48)) 0))

/-- The result of `parseCliOptions`. -/
structure CliOptions where
  host : String
  port : Int
  help : Bool
  mcpServers : List String
  mcpVersion : String
  mcpName : String
  config : Option String
deriving DecidableEq

/-- `parseCliOptions()`: `parseArgs` defaults (`localhost`, `3001`,
`config.yaml`, `1.0.0`, `mcgravity`), re-defaulted through `||` for
falsy values, `parseInt(port) || 3001`, and the config path kept only
when the file exists. -/
def parseCliOptions (args : CliArgs) (fileExists : String → Bool) : CliOptions :=
  let configFile := jsOr (args.config?.getD "config.yaml") "config.yaml"
  { host := jsOr (args.host?.getD "localhost") "localhost"
    port := match jsParseInt (args.port?.getD "3001") with
      | some n => if n == 0 then 3001 else n
      | none => 3001
    help := args.help
    mcpServers := args.positionals
    mcpVersion := jsOr (args.mcpVersion?.getD "1.0.0") "1.0.0"
    mcpName := jsOr (args.mcpName?.getD "mcgravity") "mcgravity"
    config := if fileExists configFile then some configFile else none }

/-- Modelled from the spec: `McpServerType` of `src/utils/schemas.ts`
(file not among the sources) — `{url, name?, version?, description?}`
per the config layout in the spec and the uses in `index.ts` and
`server.ts`. -/
structure McpServerSpec where
  url : String
  serverName : Option String
  serverVersion : Option String
  serverDescription : Option String
deriving DecidableEq

/-- Modelled from the spec: `ConfigType` of `src/utils/schemas.ts` —
`{name, version, description, servers: map<key, server>}`. -/
structure ConfigFile where
  name : String
  version : String
  description : String
  servers : List (String × McpServerSpec)
deriving DecidableEq

/-- Split a character list around the first occurrence of a separator
sequence; `none` when the separator does not occur. -/
def breakOnSep (sep : List Char) : List Char → Option (List Char × List Char)
  | [] => none
  | x :: xs =>
    if sep.isPrefixOf (x :: xs) then some ([], (x :: xs).drop sep.length)
    else
      match breakOnSep sep xs with
      | some (pre, post) => some (x :: pre, post)
      | none => none

/-- Split a character list at every occurrence of one character. -/
def splitOnChar (c : Char) : List Char → List (List Char)
  | [] => [[]]
  | x :: xs =>
    let r := splitOnChar c xs
    if x == c then [] :: r
    else
      match r with
      | [] => [[x]]
      | y :: ys => (x :: y) :: ys

/-- Modelled from the spec: the WHATWG `URL.hostname` getter that
`index.ts` applies to positional upstream URLs
(`new URL(server).hostname`), for plain
`scheme://[user@]host[:port][/path]` URLs; `none` when the constructor
would throw. -/
def urlHostname? (u : String) : Option String :=
  match breakOnSep "://".toList u.toList with
  | none => none
  | some (scheme, rest) =>
    if scheme.isEmpty || rest.isEmpty then none
    else
      let authority := rest.takeWhile (fun c => c != '/')
      let hostPort := (splitOnChar '@' authority).getLastD []
      let host := hostPort.takeWhile (fun c => c != ':')
      if host.isEmpty then none else some (String.mk host)

/-- `options.mcpServers.map((server) => ({url: server, name: new
URL(server).hostname, version: options.mcpVersion}))`; `none` when a
URL fails to parse (the thrown error reaches `main().catch`). -/
def serversOfPositionals (urls : List String) (ver : String) :
    Option (List McpServerSpec) :=
  urls.mapM (fun u => (urlHostname? u).map (fun h => ⟨u, some h, some ver, none⟩))

/-- How an invocation of `main` ends: `process.exit(code)`, or the
server started with the given identity, bind address and upstream
list. -/
inductive MainResult where
  | exited (code : Nat)
  | started (info : Implementation) (host : String) (port : Int)
      (servers : List McpServerSpec)
deriving DecidableEq

/-- The `new McGravityServer` identity:
`mcGravityConfig?.name || options.mcpName` and so on. -/
def serverInfoOf (opts : CliOptions) (cfg? : Option ConfigFile) : Implementation :=
  ⟨jsOr (match cfg? with | some c => c.name | none => "") opts.mcpName,
   jsOr (match cfg? with | some c => c.version | none => "") opts.mcpVersion,
   jsOr (match cfg? with | some c => c.description | none => "") ""⟩

/-- `main()` after config resolution: the help/empty branch uses the
config servers (exiting with help or usage when no config loaded), the
other branch maps the positionals. -/
def mainWithConfig (opts : CliOptions) (cfg? : Option ConfigFile) : MainResult :=
  if opts.help || opts.mcpServers.isEmpty then
    match cfg? with
    | none => .exited (if opts.help then 0 else 1)
    | some cfg =>
      .started (serverInfoOf opts cfg?) opts.host opts.port
        (cfg.servers.map (fun p => p.2))
  else
    match serversOfPositionals opts.mcpServers opts.mcpVersion with
    | none => .exited 1
    | some servers => .started (serverInfoOf opts cfg?) opts.host opts.port servers

/-- `main()`: parse options; when a config path survived the existence
check, load it (a loader error reaches `main().catch` and exits 1);
then run the branch above. -/
def mainOutcome (args : CliArgs) (fileExists : String → Bool)
    (loadCfg : String → Option ConfigFile) : MainResult :=
  let opts := parseCliOptions args fileExists
  match opts.config with
  | some cf =>
    match loadCfg cf with
    | none => .exited 1
    | some cfg => mainWithConfig opts (some cfg)
  | none => mainWithConfig opts none

/-! ## Concrete fixtures (for witnesses and counterexamples) -/

/-- A world where every connection attempt succeeds and each upstream
advertises one `echo` tool. -/
def wEcho : UpstreamWorld where
  connectOk := fun _ _ => true
  tools := fun _ => [⟨"echo", some "d", Json.null⟩]
  resources := fun _ => []
  prompts := fun _ => []
  callToolResult := fun _ _ _ => Json.str "ok"
  readResourceResult := fun _ _ => Json.null
  getPromptResult := fun _ _ _ => Json.null

/-- A world where upstream `http://a/` refuses its first connection
attempt and accepts from the second attempt on, while every other
upstream always accepts. -/
def wRetry : UpstreamWorld where
  connectOk := fun u n => u != "http://a/" || decide (1 ≤ n)
  tools := fun _ => []
  resources := fun _ => []
  prompts := fun _ => []
  callToolResult := fun _ _ _ => Json.null
  readResourceResult := fun _ _ => Json.null
  getPromptResult := fun _ _ _ => Json.null

/-- Composer state and enumeration client after one successful
registration of `http://u/` against `wEcho`, from the empty state. -/
def st7 : ComposerState × UpstreamClient :=
  addTargetServerConnected ⟨[], ⟨[], [], []⟩⟩ wEcho 0 "http://u/" ⟨"up", "1.0.0", ""⟩ false

/-- A registry holding one upstream descriptor. -/
def reg9 : Registry := [("http://u/", ⟨⟨"upstream-one", "1.0.0", ""⟩, "http://u/"⟩)]

/-- A config file whose `servers` holds one upstream. -/
def cfg8 : ConfigFile :=
  ⟨"cfg-name", "2.0.0", "from config",
   [("s1", ⟨"http://cfg.example/sse", some "cfg-server", some "1.0.0", none⟩)]⟩

/-- A command line passing one positional upstream URL and nothing
else. -/
def args8 : CliArgs := { positionals := ["http://a.example/mcp"] }

/-- A config loader that loads `cfg8` for the default path. -/
def lc8 : String → Option ConfigFile :=
  fun p => if p == "config.yaml" then some cfg8 else none

/-! ## Helper lemmas -/

lemma writesOf_append (a b : List TAct) : writesOf (a ++ b) = writesOf a ++ writesOf b := by
  simp [writesOf]

lemma respsOf_append (a b : List TAct) : respsOf (a ++ b) = respsOf a ++ respsOf b := by
  simp [respsOf]

lemma handleMessage_eq (m : Json) :
    Transport.handleMessage m =
      if isJSONRPCMessage m then ([TAct.cbMessage m], true)
      else ([TAct.cbError "Invalid JSON-RPC message"], false) := by
  unfold Transport.handleMessage safeParseJSONRPC
  by_cases h : isJSONRPCMessage m <;> simp [h]

lemma handlePostMessage_eq (t : Transport) (req : PostRequest) :
    t.handlePostMessage req =
      if t.sseResponse = none then
        (t, ([] : List TAct), ⟨500, "SSE connection not established"⟩)
      else if ctOk req = false then
        (t, [TAct.cbError "Unsupported content-type"],
         ⟨400, "Error: Unsupported content-type"⟩)
      else
        match req.body with
        | none => (t, [TAct.cbError "JSON parse error"], ⟨400, "Error: JSON parse error"⟩)
        | some m =>
          if isJSONRPCMessage m then (t, [TAct.cbMessage m], ⟨202, "Accepted"⟩)
          else
            (t, [TAct.cbError "Invalid JSON-RPC message",
                 TAct.cbError "Invalid JSON-RPC message"],
             ⟨400, "Error: Invalid JSON-RPC message"⟩) := by
  unfold Transport.handlePostMessage
  rcases hs : t.sseResponse with _ | r <;>
    rcases hb : req.body with _ | m <;>
    by_cases hct : ctOk req <;>
    simp [hs, hb, hct, handleMessage_eq] <;>
    (try (by_cases hm : isJSONRPCMessage m <;> simp [hm]))

lemma handlePostMessage_fst (t : Transport) (req : PostRequest) :
    (t.handlePostMessage req).1 = t := by
  rw [handlePostMessage_eq]
  repeat' split
  all_goals rfl

lemma handlePostMessage_no_writes (t : Transport) (req : PostRequest) :
    writesOf (t.handlePostMessage req).2.1 = [] := by
  rw [handlePostMessage_eq]
  repeat' split
  all_goals rfl

lemma handlePostMessage_no_resps (t : Transport) (req : PostRequest) :
    respsOf (t.handlePostMessage req).2.1 = [] := by
  rw [handlePostMessage_eq]
  repeat' split
  all_goals rfl

lemma createResponse_none {t : Transport} (h : t.responseObj = none) (f : Nat) :
    t.createResponse f =
      ({ t with hasWriter := true, responseObj := some ⟨f, sseHeaders⟩ }, f + 1,
       [TAct.write (SSEEvent.endpointEv t.endpointData)], ⟨f, sseHeaders⟩) := by
  unfold Transport.createResponse
  rw [h]

lemma createResponse_some {t : Transport} {r : SSEResponse} (h : t.responseObj = some r)
    (f : Nat) : t.createResponse f = (t, f, [], r) := by
  unfold Transport.createResponse
  rw [h]

lemma start_none {t : Transport} (h : t.responseObj = none) (f : Nat) :
    t.start f =
      (⟨t.sessionId, t.endpoint, true, some ⟨f, sseHeaders⟩, some ⟨f, sseHeaders⟩⟩, f + 1,
       [TAct.write (SSEEvent.endpointEv t.endpointData)]) := by
  unfold Transport.start
  rw [h]
  simp [createResponse_none h]

lemma start_some {t : Transport} {r : SSEResponse} (h : t.responseObj = some r) (f : Nat) :
    t.start f = ({ t with sseResponse := some r }, f, []) := by
  unfold Transport.start
  rw [h]

lemma send_fst (t : Transport) (m : Json) : (t.send m).1 = t := by
  unfold Transport.send
  split <;> rfl

lemma send_noWriter {t : Transport} (h : t.hasWriter = false) (m : Json) :
    t.send m = (t, [], some "Not connected") := by
  unfold Transport.send
  rw [h]
  rfl

lemma close_eq (t : Transport) :
    t.close = (⟨t.sessionId, t.endpoint, false, none, none⟩,
      (if t.hasWriter then [TAct.writerClose] else []) ++ [TAct.cbClose]) := rfl

lemma runOps_first_write (ops : List TOp) : ∀ (t : Transport) (f : Nat),
    t.hasWriter = false → t.responseObj = none →
    writesOf (runOps t f ops).2.2 = [] ∨
      (writesOf (runOps t f ops).2.2).head? =
        some (SSEEvent.endpointEv t.endpointData) := by
  induction ops with
  | nil =>
    intro t f _ _
    left
    rfl
  | cons op rest ih =>
    intro t f hw hr
    cases op with
    | createResponse =>
      right
      simp only [runOps, stepOp, createResponse_none hr]
      rw [writesOf_append]
      rfl
    | start =>
      right
      simp only [runOps, stepOp, start_none hr]
      rw [writesOf_append]
      rfl
    | post req =>
      have h1 : stepOp t f (TOp.post req) = (t, f, (t.handlePostMessage req).2.1) := by
        simp [stepOp, handlePostMessage_fst]
      simp only [runOps, h1, writesOf_append, handlePostMessage_no_writes, List.nil_append]
      exact ih t f hw hr
    | send m =>
      simp only [runOps, stepOp, send_noWriter hw]
      simp only [writesOf_append]
      have h2 : writesOf ([] : List TAct) = [] := rfl
      rw [h2, List.nil_append]
      exact ih t f hw hr
    | close =>
      simp only [runOps, stepOp, close_eq, hw, writesOf_append]
      simp only [show writesOf (if false = true then [TAct.writerClose] else []) = [] from rfl,
                 show writesOf [TAct.cbClose] = [] from rfl, List.nil_append]
      exact ih ⟨t.sessionId, t.endpoint, false, none, none⟩ f rfl rfl

lemma runOps_resp_headers (ops : List TOp) : ∀ (t : Transport) (f : Nat),
    (∀ r, t.responseObj = some r → r.headers = sseHeaders) →
    ∀ r ∈ respsOf (runOps t f ops).2.2, r.headers = sseHeaders := by
  induction ops with
  | nil =>
    intro t f _ r hr
    simp [runOps, respsOf] at hr
  | cons op rest ih =>
    intro t f hinv r hr
    cases op with
    | createResponse =>
      rcases hro : t.responseObj with _ | r0
      · simp only [runOps, stepOp, createResponse_none hro, respsOf_append] at hr
        rcases List.mem_append.mp hr with h | h
        · simp [respsOf] at h
          rw [h]
        · refine ih _ (f + 1) ?_ r h
          intro r1 hr1
          simp at hr1
          rw [← hr1]
      · simp only [runOps, stepOp, createResponse_some hro, respsOf_append] at hr
        rcases List.mem_append.mp hr with h | h
        · simp [respsOf] at h
          rw [h]
          exact hinv r0 hro
        · exact ih t f hinv r h
    | start =>
      rcases hro : t.responseObj with _ | r0
      · simp only [runOps, stepOp, start_none hro, respsOf_append] at hr
        rcases List.mem_append.mp hr with h | h
        · simp [respsOf] at h
        · refine ih _ (f + 1) ?_ r h
          intro r1 hr1
          simp at hr1
          rw [← hr1]
      · simp only [runOps, stepOp, start_some hro, respsOf_append] at hr
        rcases List.mem_append.mp hr with h | h
        · simp [respsOf] at h
        · refine ih _ f ?_ r h
          intro r1 hr1
          exact hinv r1 hr1
    | post req =>
      have h1 : stepOp t f (TOp.post req) = (t, f, (t.handlePostMessage req).2.1) := by
        simp [stepOp, handlePostMessage_fst]
      simp only [runOps, h1, respsOf_append, handlePostMessage_no_resps,
        List.nil_append] at hr
      exact ih t f hinv r hr
    | send m =>
      have h1 : stepOp t f (TOp.send m) = (t, f, (t.send m).2.1) := by
        simp [stepOp, send_fst]
      have h2 : respsOf (t.send m).2.1 = [] := by
        unfold Transport.send
        split
        · rfl
        · rfl
      simp only [runOps, h1, respsOf_append, h2, List.nil_append] at hr
      exact ih t f hinv r hr
    | close =>
      have h2 : respsOf ((if t.hasWriter then [TAct.writerClose] else []) ++
          [TAct.cbClose]) = [] := by
        split
        · rfl
        · rfl
      simp only [runOps, stepOp, close_eq, respsOf_append, h2, List.nil_append] at hr
      refine ih _ f ?_ r hr
      intro r1 hr1
      simp at hr1

lemma endpointData_sessions (sid : String) :
    (Transport.new "/sessions" sid).endpointData = "/sessions?sessionId=" ++ sid := by
  show encodeURI "/sessions" ++ "?sessionId=" ++ sid = "/sessions?sessionId=" ++ sid
  rw [show encodeURI "/sessions" = "/sessions" from by decide,
    show ("/sessions" ++ "?sessionId=" : String) = "/sessions?sessionId=" from by decide]

lemma runOps_cr_start_stable (ops : List TOp) : ∀ (t : Transport) (f : Nat) (r : SSEResponse),
    ops.all isCreateOrStart = true → t.responseObj = some r →
    writesOf (runOps t f ops).2.2 = [] ∧
    (∀ x ∈ respsOf (runOps t f ops).2.2, x = r) ∧
    (runOps t f ops).1.responseObj = some r := by
  induction ops with
  | nil =>
    intro t f r _ hr
    refine ⟨rfl, ?_, hr⟩
    intro x hx
    simp [runOps, respsOf] at hx
  | cons op rest ih =>
    intro t f r hall hr
    rw [List.all_cons, Bool.and_eq_true] at hall
    cases op with
    | createResponse =>
      have hstep : stepOp t f TOp.createResponse = (t, f, [TAct.retResponse r]) := by
        simp [stepOp, createResponse_some hr]
      obtain ⟨h1, h2, h3⟩ := ih t f r hall.2 hr
      refine ⟨?_, ?_, ?_⟩
      · simp only [runOps, hstep, writesOf_append, h1]
        rfl
      · simp only [runOps, hstep, respsOf_append]
        intro x hx
        rcases List.mem_append.mp hx with h | h
        · simpa [respsOf] using h
        · exact h2 x h
      · simp only [runOps, hstep]
        exact h3
    | start =>
      have hstep : stepOp t f TOp.start = ({ t with sseResponse := some r }, f, []) := by
        simp [stepOp, start_some hr]
      have hr2 : ({ t with sseResponse := some r } : Transport).responseObj = some r := hr
      obtain ⟨h1, h2, h3⟩ := ih { t with sseResponse := some r } f r hall.2 hr2
      refine ⟨?_, ?_, ?_⟩
      · simp only [runOps, hstep, writesOf_append, h1]
        rfl
      · simp only [runOps, hstep, respsOf_append]
        intro x hx
        rcases List.mem_append.mp hx with h | h
        · simp [respsOf] at h
        · exact h2 x h
      · simp only [runOps, hstep]
        exact h3
    | post req => simp [isCreateOrStart] at hall
    | send m => simp [isCreateOrStart] at hall
    | close => simp [isCreateOrStart] at hall

lemma close_replicate_closed (n : Nat) : ∀ (t : Transport) (f : Nat), t.hasWriter = false →
    (runOps t f (List.replicate n TOp.close)).2.2 = List.replicate n TAct.cbClose := by
  induction n with
  | zero =>
    intro t f _
    rfl
  | succ n ih =>
    intro t f h
    rw [List.replicate_succ]
    simp only [runOps, stepOp, close_eq, h]
    rw [ih ⟨t.sessionId, t.endpoint, false, none, none⟩ f rfl]
    rw [List.replicate_succ]
    rfl

lemma countP_replicate_tact (p : TAct → Bool) (a : TAct) (n : Nat) :
    (List.replicate n a).countP p = if p a then n else 0 := by
  induction n with
  | zero => simp
  | succ n ih =>
    rw [List.replicate_succ, List.countP_cons, ih]
    by_cases hp : p a <;> simp [hp]

/-! ## Claim theorems -/

/-- C1: a POST to the message endpoint whose `sessionId` does not name a
live transport in the sessions map is answered 400 `Invalid session ID`;
one that does is delegated to that transport's `handlePostMessage`,
which returns 500 when the SSE connection is not established, 400 with
`onerror` invoked when the content type is not `application/json` or
the body fails to parse or validate as a JSON-RPC message, and
otherwise 202 with exactly one `onmessage` callback carrying the
parsed payload. -/
theorem c1_message_endpoint (m : SessionsMap) (sid? : Option String) (req : PostRequest) :
    (liveTransport m sid? = none →
      routeSessions m sid? req = (m, [], ⟨400, "Invalid session ID"⟩)) ∧
    ∀ t, liveTransport m sid? = some t →
      ∃ sid, sid? = some sid ∧
        routeSessions m sid? req =
          (mapSet m sid (t.handlePostMessage req).1,
           (t.handlePostMessage req).2.1, (t.handlePostMessage req).2.2) ∧
        (t.sseResponse = none →
          t.handlePostMessage req = (t, [], ⟨500, "SSE connection not established"⟩)) ∧
        (t.sseResponse ≠ none → ctOk req = false →
          (t.handlePostMessage req).2.2.status = 400 ∧
          1 ≤ cbErrorCount (t.handlePostMessage req).2.1) ∧
        (t.sseResponse ≠ none → ctOk req = true → req.body = none →
          (t.handlePostMessage req).2.2.status = 400 ∧
          1 ≤ cbErrorCount (t.handlePostMessage req).2.1) ∧
        (∀ j, t.sseResponse ≠ none → ctOk req = true → req.body = some j →
          isJSONRPCMessage j = false →
          (t.handlePostMessage req).2.2.status = 400 ∧
          1 ≤ cbErrorCount (t.handlePostMessage req).2.1) ∧
        (∀ j, t.sseResponse ≠ none → ctOk req = true → req.body = some j →
          isJSONRPCMessage j = true →
          t.handlePostMessage req = (t, [TAct.cbMessage j], ⟨202, "Accepted"⟩)) := by
  constructor
  · intro hdead
    rcases sid? with _ | sid
    · rfl
    · simp only [liveTransport] at hdead
      by_cases hsid : (sid == "") = true
      · simp [routeSessions, hsid]
      · rw [if_neg hsid] at hdead
        simp [routeSessions, hsid, hdead]
  · intro t hlive
    rcases sid? with _ | sid
    · exact absurd hlive (by simp [liveTransport])
    · simp only [liveTransport] at hlive
      by_cases hsid : (sid == "") = true
      · rw [if_pos hsid] at hlive
        exact absurd hlive (by simp)
      · rw [if_neg hsid] at hlive
        refine ⟨sid, rfl, ?_, ?_, ?_, ?_, ?_, ?_⟩
        · simp only [routeSessions, if_neg hsid, hlive]
        · intro hsse
          rw [handlePostMessage_eq, if_pos hsse]
        · intro hsse hct
          rw [handlePostMessage_eq, if_neg hsse, if_pos hct]
          exact ⟨rfl, Nat.le_refl 1⟩
        · intro hsse hct hbody
          rw [handlePostMessage_eq, if_neg hsse, hbody]
          rw [if_neg (by simp [hct])]
          exact ⟨rfl, Nat.le_refl 1⟩
        · intro j hsse hct hbody hj
          rw [handlePostMessage_eq, if_neg hsse, hbody]
          rw [if_neg (by simp [hct])]
          simp only [hj, Bool.false_eq_true, if_neg not_false]
          exact ⟨by trivial, Nat.le_succ 1⟩
        · intro j hsse hct hbody hj
          rw [handlePostMessage_eq, if_neg hsse, hbody]
          rw [if_neg (by simp [hct])]
          simp [hj]

/-- C1 witness: a live, established transport accepting a valid
JSON-RPC request body answers 202 with exactly one `onmessage`. -/
theorem c1_message_endpoint_witness :
    (⟨"sid-1", "/sessions", true, some ⟨0, sseHeaders⟩, some ⟨0, sseHeaders⟩⟩ :
        Transport).handlePostMessage
      ⟨some "application/json",
       some (.obj [("jsonrpc", .str "2.0"), ("id", .num 1), ("method", .str "ping")])⟩ =
    (⟨"sid-1", "/sessions", true, some ⟨0, sseHeaders⟩, some ⟨0, sseHeaders⟩⟩,
     [TAct.cbMessage (.obj [("jsonrpc", .str "2.0"), ("id", .num 1),
        ("method", .str "ping")])],
     ⟨202, "Accepted"⟩) := by
  have h := (c1_message_endpoint
    [("sid-1", ⟨"sid-1", "/sessions", true, some ⟨0, sseHeaders⟩, some ⟨0, sseHeaders⟩⟩)]
    (some "sid-1")
    ⟨some "application/json",
     some (.obj [("jsonrpc", .str "2.0"), ("id", .num 1), ("method", .str "ping")])⟩).2
    ⟨"sid-1", "/sessions", true, some ⟨0, sseHeaders⟩, some ⟨0, sseHeaders⟩⟩ rfl
  obtain ⟨sid, _, _, _, _, _, _, hok⟩ := h
  exact hok (.obj [("jsonrpc", .str "2.0"), ("id", .num 1), ("method", .str "ping")])
    (by simp) rfl rfl rfl

/-- C2: for a transport opened by the server (post endpoint
`/sessions`), the very first SSE event written across any sequence of
operations is the `endpoint` event with data
`/sessions?sessionId=<id>`, hence before any `message` event, and
every `Response` the transport hands out carries
`Content-Type: text/event-stream`. -/
theorem c2_endpoint_event_first (sid : String) (ops : List TOp)
    (hopen : writesOf (runOps (Transport.new "/sessions" sid) 0 ops).2.2 ≠ []) :
    (writesOf (runOps (Transport.new "/sessions" sid) 0 ops).2.2).head? =
      some (SSEEvent.endpointEv ("/sessions?sessionId=" ++ sid)) ∧
    ∀ r ∈ respsOf (runOps (Transport.new "/sessions" sid) 0 ops).2.2,
      ("Content-Type", "text/event-stream") ∈ r.headers := by
  constructor
  · rcases runOps_first_write ops (Transport.new "/sessions" sid) 0 rfl rfl with h | h
    · exact absurd h hopen
    · rw [h, endpointData_sessions]
  · intro r hr
    have h := runOps_resp_headers ops (Transport.new "/sessions" sid) 0
      (by intro r1 hr1; simp [Transport.new] at hr1) r hr
    rw [h]
    simp [sseHeaders]

/-- C2 witness: opening a session writes the endpoint event first. -/
theorem c2_endpoint_event_first_witness :
    (writesOf (runOps (Transport.new "/sessions" "s-1") 0 [TOp.createResponse]).2.2).head? =
      some (SSEEvent.endpointEv ("/sessions?sessionId=" ++ "s-1")) :=
  (c2_endpoint_event_first "s-1" [TOp.createResponse]
    (by rw [show writesOf (runOps (Transport.new "/sessions" "s-1") 0
            [TOp.createResponse]).2.2
          = [SSEEvent.endpointEv ((Transport.new "/sessions" "s-1").endpointData)] from rfl]
        exact List.cons_ne_nil _ _)).1

/-- C5 counterexample: on a transport opened by `createResponse`, two
`close()` calls fire `onclose` twice — not exactly once as claimed —
while the writer is closed only once. -/
theorem c5_counterexample :
    oncloseCount (runOps (Transport.new "/sessions" "session-1") 0
      [TOp.createResponse, TOp.close, TOp.close]).2.2 = 2 ∧
    oncloseCount (runOps (Transport.new "/sessions" "session-1") 0
      [TOp.createResponse, TOp.close, TOp.close]).2.2 ≠ 1 ∧
    writerCloseCount (runOps (Transport.new "/sessions" "session-1") 0
      [TOp.createResponse, TOp.close, TOp.close]).2.2 = 1 := by
  refine ⟨rfl, by decide, rfl⟩

/-- C5 amended: `close()` may be called any number of times and only
the first call closes and releases the stream writer (later calls skip
it), but `onclose` fires on every call — n + 1 calls fire it n + 1
times, not once. -/
theorem c5_close_behaviour (t : Transport) (n : Nat) :
    writerCloseCount (runOps t 0 (List.replicate (n + 1) TOp.close)).2.2 =
      (if t.hasWriter then 1 else 0) ∧
    oncloseCount (runOps t 0 (List.replicate (n + 1) TOp.close)).2.2 = n + 1 := by
  rw [List.replicate_succ]
  simp only [runOps, stepOp, close_eq]
  rw [close_replicate_closed n ⟨t.sessionId, t.endpoint, false, none, none⟩ 0 rfl]
  unfold writerCloseCount oncloseCount
  by_cases hw : t.hasWriter <;>
    simp [hw, List.countP_append, List.countP_cons, countP_replicate_tact]

/-- C5 witness: two `close()` calls on a fresh transport (no writer)
close no writer and fire `onclose` twice. -/
theorem c5_close_behaviour_witness :
    writerCloseCount (runOps (Transport.new "/sessions" "session-2") 0
      (List.replicate 2 TOp.close)).2.2 = 0 ∧
    oncloseCount (runOps (Transport.new "/sessions" "session-2") 0
      (List.replicate 2 TOp.close)).2.2 = 2 :=
  c5_close_behaviour (Transport.new "/sessions" "session-2") 1

/-- C10: across any nonempty sequence of `createResponse`/`start`
calls on one transport, the `endpoint` event is written exactly once
and every `createResponse` call returns the very `Response` object the
first call created (identity 0 with the SSE headers). -/
theorem c10_createResponse_idempotent (sid : String) (ops : List TOp)
    (hall : ops.all isCreateOrStart = true) (hne : ops ≠ []) :
    endpointWrites (runOps (Transport.new "/sessions" sid) 0 ops).2.2 = 1 ∧
    ∀ x ∈ respsOf (runOps (Transport.new "/sessions" sid) 0 ops).2.2,
      x = ⟨0, sseHeaders⟩ := by
  cases ops with
  | nil => exact absurd rfl hne
  | cons op rest =>
    rw [List.all_cons, Bool.and_eq_true] at hall
    have hr0 : (Transport.new "/sessions" sid).responseObj = none := rfl
    cases op with
    | createResponse =>
      have hstep : stepOp (Transport.new "/sessions" sid) 0 TOp.createResponse =
          (⟨sid, "/sessions", true, some ⟨0, sseHeaders⟩, none⟩, 1,
           [TAct.write (SSEEvent.endpointEv (Transport.new "/sessions" sid).endpointData),
            TAct.retResponse ⟨0, sseHeaders⟩]) := by
        simp [stepOp, createResponse_none hr0]
        exact ⟨rfl, rfl, rfl⟩
      obtain ⟨h1, h2, _⟩ := runOps_cr_start_stable rest
        ⟨sid, "/sessions", true, some ⟨0, sseHeaders⟩, none⟩ 1 ⟨0, sseHeaders⟩ hall.2 rfl
      constructor
      · simp only [runOps, hstep, endpointWrites, writesOf_append, h1]
        rfl
      · simp only [runOps, hstep, respsOf_append]
        intro x hx
        rcases List.mem_append.mp hx with h | h
        · simpa [respsOf] using h
        · exact h2 x h
    | start =>
      have hstep : stepOp (Transport.new "/sessions" sid) 0 TOp.start =
          (⟨sid, "/sessions", true, some ⟨0, sseHeaders⟩, some ⟨0, sseHeaders⟩⟩, 1,
           [TAct.write (SSEEvent.endpointEv
             (Transport.new "/sessions" sid).endpointData)]) := by
        simp [stepOp, start_none hr0]
        exact ⟨rfl, rfl⟩
      obtain ⟨h1, h2, _⟩ := runOps_cr_start_stable rest
        ⟨sid, "/sessions", true, some ⟨0, sseHeaders⟩, some ⟨0, sseHeaders⟩⟩ 1 ⟨0, sseHeaders⟩
        hall.2 rfl
      constructor
      · simp only [runOps, hstep, endpointWrites, writesOf_append, h1]
        rfl
      · simp only [runOps, hstep, respsOf_append]
        intro x hx
        rcases List.mem_append.mp hx with h | h
        · simp [respsOf] at h
        · exact h2 x h
    | post req => simp [isCreateOrStart] at hall
    | send m => simp [isCreateOrStart] at hall
    | close => simp [isCreateOrStart] at hall

/-- C10 witness: `createResponse`, `start`, `createResponse` write one
endpoint event and always return response 0. -/
theorem c10_createResponse_idempotent_witness :
    endpointWrites (runOps (Transport.new "/sessions" "s-2") 0
      [TOp.createResponse, TOp.start, TOp.createResponse]).2.2 = 1 ∧
    ∀ x ∈ respsOf (runOps (Transport.new "/sessions" "s-2") 0
      [TOp.createResponse, TOp.start, TOp.createResponse]).2.2,
      x = ⟨0, sseHeaders⟩ :=
  c10_createResponse_idempotent "s-2" [TOp.createResponse, TOp.start, TOp.createResponse]
    rfl (List.cons_ne_nil _ _)

lemma mapGet_mapSet_self (m : List (String × α)) (k : String) (v : α) :
    mapGet (mapSet m k v) k = some v := by
  induction m with
  | nil => simp [mapSet, mapGet]
  | cons p rest ih =>
    by_cases h : (p.1 == k) = true
    · simp [mapSet, h, mapGet]
    · simp [mapSet, h, mapGet, ih]

/-- C3: a registered capability handler, invoked while its captured
key resolves, opens a fresh upstream client against the descriptor's
URL, issues exactly one RPC (`callTool` / `readResource` /
`getPrompt`), closes that client as its final action, and returns the
upstream's result; the fresh-client counter advances, so a second
invocation opens a different client — no upstream client is reused
across invocations. -/
theorem c3_connection_per_invocation (reg : Registry) (f : Nat) (w : UpstreamWorld)
    (key tool uri prm : String) (targs pargs : Json) (item : TargetEntry)
    (h : mapGet reg key = some item) :
    dispatchTool reg f w key tool targs =
      (reg, f + 1,
       .ok ([.connect f item.url, .callToolRpc f tool targs, .closeClient f],
            w.callToolResult item.url tool targs)) ∧
    dispatchResource reg f w key uri =
      (reg, f + 1,
       .ok ([.connect f item.url, .readResourceRpc f uri, .closeClient f],
            w.readResourceResult item.url uri)) ∧
    dispatchPrompt reg f w key prm pargs =
      (reg, f + 1,
       .ok ([.connect f item.url, .getPromptRpc f prm pargs, .closeClient f],
            w.getPromptResult item.url prm pargs)) ∧
    [UpAct.connect f item.url, UpAct.callToolRpc f tool targs,
      UpAct.closeClient f].countP UpAct.isRpc = 1 ∧
    (∀ a ∈ [UpAct.connect f item.url, UpAct.callToolRpc f tool targs,
        UpAct.closeClient f], a.client = f) ∧
    dispatchTool reg (dispatchTool reg f w key tool targs).2.1 w key tool targs =
      (reg, f + 2,
       .ok ([.connect (f + 1) item.url, .callToolRpc (f + 1) tool targs,
             .closeClient (f + 1)],
            w.callToolResult item.url tool targs)) ∧
    f + 1 ≠ f := by
  unfold dispatchTool dispatchResource dispatchPrompt
  rw [h]
  refine ⟨rfl, rfl, rfl, rfl, ?_, rfl, by omega⟩
  intro a ha
  simp only [List.mem_cons, List.not_mem_nil, or_false] at ha
  rcases ha with rfl | rfl | rfl
  · rfl
  · rfl
  · rfl

/-- C3 witness: dispatching `echo` through a one-entry registry. -/
theorem c3_connection_per_invocation_witness :
    dispatchTool reg9 0 wEcho "http://u/" "echo" Json.null =
      (reg9, 1,
       .ok ([.connect 0 "http://u/", .callToolRpc 0 "echo" Json.null, .closeClient 0],
            Json.str "ok")) :=
  (c3_connection_per_invocation reg9 0 wEcho "http://u/" "echo" "u" "p" Json.null Json.null
    ⟨⟨"upstream-one", "1.0.0", ""⟩, "http://u/"⟩ rfl).1

/-- C6: at dispatch time the captured key either resolves in the
registry, or all three handler kinds fail with the
`Client for <key> not found` error, forwarding nothing, allocating no
client, and leaving the registry unchanged. -/
theorem c6_dispatch_registry_invariant (reg : Registry) (f : Nat) (w : UpstreamWorld)
    (key tool uri prm : String) (targs pargs : Json) :
    (∃ item, mapGet reg key = some item) ∨
    (mapGet reg key = none ∧
     dispatchTool reg f w key tool targs =
       (reg, f, .error ("Client for " ++ key ++ " not found")) ∧
     dispatchResource reg f w key uri =
       (reg, f, .error ("Client for " ++ key ++ " not found")) ∧
     dispatchPrompt reg f w key prm pargs =
       (reg, f, .error ("Client for " ++ key ++ " not found"))) := by
  rcases h : mapGet reg key with _ | item
  · right
    unfold dispatchTool dispatchResource dispatchPrompt
    rw [h]
    exact ⟨rfl, rfl, rfl, rfl⟩
  · left
    exact ⟨item, rfl⟩

lemma addTimeline_first_success (w : UpstreamWorld) (url : String) (t0 : Nat) :
    ∀ (n fuel a : Nat), n < fuel →
    (∀ k, k < n → w.connectOk url (a + k) = false) →
    w.connectOk url (a + n) = true →
    addTargetServerTimeline w url t0 a fuel =
      ((List.range n).map (fun k =>
          MainEv.connectAttempt url (a + k) (t0 + 10000 * (a + k))) ++
       [MainEv.connectAttempt url (a + n) (t0 + 10000 * (a + n)),
        MainEv.connected url (t0 + 10000 * (a + n))],
       some (t0 + 10000 * (a + n))) := by
  intro n
  induction n with
  | zero =>
    intro fuel a hfuel _ hok
    rcases fuel with _ | fuel
    · omega
    · unfold addTargetServerTimeline
      rw [show a + 0 = a from rfl] at hok
      rw [hok]
      simp
  | succ n ih =>
    intro fuel a hfuel hfail hok
    rcases fuel with _ | fuel
    · omega
    · unfold addTargetServerTimeline
      have h0 : w.connectOk url a = false := by
        have := hfail 0 (by omega)
        simpa using this
      rw [h0]
      simp only [Bool.false_eq_true, if_false]
      have ihh := ih fuel (a + 1) (by omega)
        (fun k hk => by
          have := hfail (k + 1) (by omega)
          rwa [show a + (k + 1) = a + 1 + k from by omega] at this)
        (by rwa [show a + 1 + n = a + (n + 1) from by omega])
      rw [ihh]
      rw [List.range_succ_eq_map, List.map_cons, List.map_map]
      refine congrArg₂ Prod.mk ?_ ?_
      · show MainEv.connectAttempt url a (t0 + 10000 * a) ::
          ((List.range n).map (fun k =>
            MainEv.connectAttempt url (a + 1 + k) (t0 + 10000 * (a + 1 + k))) ++
           [MainEv.connectAttempt url (a + 1 + n) (t0 + 10000 * (a + 1 + n)),
            MainEv.connected url (t0 + 10000 * (a + 1 + n))]) = _
        rw [show (a + 0 : Nat) = a from by omega]
        show _ = MainEv.connectAttempt url a (t0 + 10000 * a) :: _
        refine congrArg₂ List.cons rfl (congrArg₂ (· ++ ·) ?_ ?_)
        · refine List.map_congr_left ?_
          intro k _
          show MainEv.connectAttempt url (a + 1 + k) (t0 + 10000 * (a + 1 + k)) =
            MainEv.connectAttempt url (a + Nat.succ k) (t0 + 10000 * (a + Nat.succ k))
          congr 1 <;> omega
        · have h1 : a + 1 + n = a + (n + 1) := by omega
          rw [h1]
      · have h1 : a + 1 + n = a + (n + 1) := by omega
        rw [h1]

/-- C7 counterexample: after a successful registration of `http://u/`
(the concrete run `st7`), the enumeration client has no close handler
attached, so delivering the session-close event removes nothing from
the registry and triggers no reconnect call — the descriptor is still
present afterwards, contradicting the claimed remove-and-reconnect
behaviour. -/
theorem c7_counterexample :
    st7.2.oncloseHandler = none ∧
    deliverClose st7.1 st7.2 = (st7.1, none) ∧
    mapGet st7.1.targetClients "http://u/" =
      some ⟨⟨"up", "1.0.0", ""⟩, "http://u/"⟩ ∧
    st7.1.caps.tools = [⟨"echo", "d", "http://u/"⟩] := by
  refine ⟨rfl, rfl, by decide, rfl⟩

/-- C7 amended: the current revision attaches no close handler to the
upstream client (and closes the enumeration client itself), so an
upstream session close triggers nothing; the private
`handleTargetServerClose` closure, were it invoked, would delete the
descriptor and immediately call `addTargetServer` with
`skipRegister = true` — the fixed 10-second delay sits only between
failed connect attempts inside `addTargetServer` (last conjunct) —
leaving the installed capability handlers untouched; the skipRegister
reconnect re-inserts the descriptor without touching the handlers, and
dispatch through a still-installed handler succeeds again once the
descriptor is back. -/
theorem c7_close_handling (st : ComposerState) (w : UpstreamWorld) (cid : Nat)
    (url name : String) (info : Implementation) (skip : Bool) (f : Nat)
    (tool : String) (targs : Json) :
    (addTargetServerConnected st w cid url info skip).2.oncloseHandler = none ∧
    deliverClose (addTargetServerConnected st w cid url info skip).1
        (addTargetServerConnected st w cid url info skip).2 =
      ((addTargetServerConnected st w cid url info skip).1, none) ∧
    handleTargetServerCloseRun st name url info =
      (⟨mapDelete st.targetClients name, st.caps⟩, ⟨url, info, true⟩) ∧
    (handleTargetServerCloseRun st name url info).1.caps = st.caps ∧
    (addTargetServerConnected (handleTargetServerCloseRun st name url info).1 w cid
        url info true).1 =
      ⟨mapSet (mapDelete st.targetClients name) url ⟨info, url⟩, st.caps⟩ ∧
    (dispatchTool (mapSet st.targetClients url ⟨info, url⟩) f w url tool targs).2.2 =
      .ok ([.connect f url, .callToolRpc f tool targs, .closeClient f],
           w.callToolResult url tool targs) ∧
    (∀ t0 fuel nn, nn < fuel →
      (∀ k, k < nn → w.connectOk url k = false) → w.connectOk url nn = true →
      (addTargetServerTimeline w url t0 0 fuel).2 = some (t0 + 10000 * nn)) := by
  refine ⟨?_, ?_, rfl, rfl, rfl, ?_, ?_⟩
  · unfold addTargetServerConnected
    split
    · rfl
    · rfl
  · unfold deliverClose
    rw [show (addTargetServerConnected st w cid url info skip).2.oncloseHandler = none
      from by unfold addTargetServerConnected; split <;> rfl]
  · unfold dispatchTool
    rw [mapGet_mapSet_self]
  · intro t0 fuel nn h1 h2 h3
    rw [addTimeline_first_success w url t0 nn fuel 0 h1
      (by intro k hk; simpa using h2 k hk) (by simpa using h3)]
    simp

/-- C7 witness: in `wRetry`, the reconnect of `http://a/` fails its
first attempt and succeeds at attempt 1, completing at 10000 ms — the
10-second delay lies between the failed and the next connect
attempt. -/
theorem c7_close_handling_witness :
    (addTargetServerTimeline wRetry "http://a/" 0 0 5).2 = some 10000 :=
  (c7_close_handling ⟨[], ⟨[], [], []⟩⟩ wRetry 0 "http://a/" "http://a/"
      ⟨"up", "1.0.0", ""⟩ false 0 "echo" Json.null).2.2.2.2.2.2 0 5 1 (by omega)
    (fun k hk => by
      have hk0 : k = 0 := by omega
      subst hk0
      rfl)
    rfl

/-- C9 counterexample: with one registered upstream, the served JSON
array's element is `{clientInfo: {...}, url: ...}` — it has no
top-level `name` member (the upstream's name sits at
`clientInfo.name`), contradicting "each element containing at least
`url` and `name`". -/
theorem c9_counterexample :
    (routeListTargets reg9).bodyJson =
      Json.arr [Json.obj [("clientInfo", Json.obj [("name", Json.str "upstream-one"),
        ("version", Json.str "1.0.0"), ("description", Json.str "")]),
        ("url", Json.str "http://u/")]] ∧
    (Json.obj [("clientInfo", Json.obj [("name", Json.str "upstream-one"),
        ("version", Json.str "1.0.0"), ("description", Json.str "")]),
        ("url", Json.str "http://u/")]).getField "name" = none ∧
    (routeListTargets reg9).status = 200 :=
  ⟨rfl, rfl, rfl⟩

/-- C9 amended: `GET /api/list-targets` answers 200 with a JSON array
of the registry's descriptors — one element per registered upstream,
empty when none — where each element carries `url` and a `clientInfo`
object (the upstream's name is `clientInfo.name`, not a top-level
`name`). -/
theorem c9_list_targets (reg : Registry) :
    (routeListTargets reg).status = 200 ∧
    (routeListTargets reg).bodyJson =
      Json.arr ((listTargetClients reg).map TargetEntry.toJson) ∧
    (∀ elems, (routeListTargets reg).bodyJson = Json.arr elems →
      elems.length = reg.length) ∧
    (reg = [] → (routeListTargets reg).bodyJson = Json.arr []) ∧
    ∀ e ∈ listTargetClients reg,
      (TargetEntry.toJson e).getField "url" = some (.str e.url) ∧
      (TargetEntry.toJson e).getField "clientInfo" = some e.clientInfo.toJson ∧
      (TargetEntry.toJson e).getField "name" = none := by
  refine ⟨rfl, rfl, ?_, ?_, ?_⟩
  · intro elems h
    have h2 := (Json.arr.injEq _ _).mp h
    rw [← h2]
    simp [listTargetClients]
  · intro h
    rw [h]
    rfl
  · intro e _
    exact ⟨rfl, rfl, rfl⟩

lemma mainOutcome_none (args : CliArgs) (fe : String → Bool)
    (lc : String → Option ConfigFile)
    (hc : (parseCliOptions args fe).config = none) :
    mainOutcome args fe lc = mainWithConfig (parseCliOptions args fe) none := by
  unfold mainOutcome
  show (match (parseCliOptions args fe).config with
    | some cf =>
      match lc cf with
      | none => MainResult.exited 1
      | some cfg => mainWithConfig (parseCliOptions args fe) (some cfg)
    | none => mainWithConfig (parseCliOptions args fe) none) = _
  rw [hc]

lemma mainOutcome_some (args : CliArgs) (fe : String → Bool)
    (lc : String → Option ConfigFile) (cf : String) (cfg : ConfigFile)
    (hc : (parseCliOptions args fe).config = some cf) (hlc : lc cf = some cfg) :
    mainOutcome args fe lc = mainWithConfig (parseCliOptions args fe) (some cfg) := by
  unfold mainOutcome
  show (match (parseCliOptions args fe).config with
    | some cf =>
      match lc cf with
      | none => MainResult.exited 1
      | some cfg => mainWithConfig (parseCliOptions args fe) (some cfg)
    | none => mainWithConfig (parseCliOptions args fe) none) = _
  rw [hc]
  show (match lc cf with
    | none => MainResult.exited 1
    | some cfg => mainWithConfig (parseCliOptions args fe) (some cfg)) = _
  rw [hlc]

lemma mainOutcome_loadFail (args : CliArgs) (fe : String → Bool)
    (lc : String → Option ConfigFile) (cf : String)
    (hc : (parseCliOptions args fe).config = some cf) (hlc : lc cf = none) :
    mainOutcome args fe lc = .exited 1 := by
  unfold mainOutcome
  show (match (parseCliOptions args fe).config with
    | some cf =>
      match lc cf with
      | none => MainResult.exited 1
      | some cfg => mainWithConfig (parseCliOptions args fe) (some cfg)
    | none => mainWithConfig (parseCliOptions args fe) none) = _
  rw [hc]
  show (match lc cf with
    | none => MainResult.exited 1
    | some cfg => mainWithConfig (parseCliOptions args fe) (some cfg)) = _
  rw [hlc]

/-- C8 counterexample: with the default `config.yaml` present and
loading (`lc8` yields `cfg8`, whose `servers` holds one upstream) and
one positional URL given, `main` starts the server with the
positional-derived upstream list, not the config file's servers —
contradicting "if --config points to an existing file, the config
file's servers populate the upstream list". -/
theorem c8_counterexample :
    mainOutcome args8 (fun _ => true) lc8 =
      .started ⟨"cfg-name", "2.0.0", "from config"⟩ "localhost" 3001
        [⟨"http://a.example/mcp", some "a.example", some "1.0.0", none⟩] ∧
    ([⟨"http://a.example/mcp", some "a.example", some "1.0.0", none⟩] :
        List McpServerSpec) ≠ cfg8.servers.map (fun p => p.2) := by
  exact ⟨rfl, by decide⟩

/-- C8 amended: the `parseArgs` defaults are host `localhost`, port
3001, mcp-name `mcgravity`, mcp-version `1.0.0`; the process exits 0
on `--help` only when no config file loads, exits 1 when there are no
upstreams at all or the config loader fails; when a config loads, its
`servers` populate the upstream list only when `--help` was passed or
no positional URLs were given — positional URLs take precedence over
an existing config file. -/
theorem c8_cli_behaviour (args : CliArgs) (fe : String → Bool)
    (lc : String → Option ConfigFile) :
    (args.host? = none → (parseCliOptions args fe).host = "localhost") ∧
    (args.port? = none → (parseCliOptions args fe).port = 3001) ∧
    (args.mcpName? = none → (parseCliOptions args fe).mcpName = "mcgravity") ∧
    (args.mcpVersion? = none → (parseCliOptions args fe).mcpVersion = "1.0.0") ∧
    (args.help = true → (parseCliOptions args fe).config = none →
      mainOutcome args fe lc = .exited 0) ∧
    (args.help = false → args.positionals = [] →
      (parseCliOptions args fe).config = none →
      mainOutcome args fe lc = .exited 1) ∧
    (∀ cf, (parseCliOptions args fe).config = some cf → lc cf = none →
      mainOutcome args fe lc = .exited 1) ∧
    (∀ cf cfg, (parseCliOptions args fe).config = some cf → lc cf = some cfg →
      (args.help = true ∨ args.positionals = []) →
      mainOutcome args fe lc =
        .started (serverInfoOf (parseCliOptions args fe) (some cfg))
          (parseCliOptions args fe).host (parseCliOptions args fe).port
          (cfg.servers.map (fun p => p.2))) ∧
    (∀ servers, (parseCliOptions args fe).config = none →
      args.help = false → args.positionals ≠ [] →
      serversOfPositionals args.positionals (parseCliOptions args fe).mcpVersion =
        some servers →
      mainOutcome args fe lc =
        .started (serverInfoOf (parseCliOptions args fe) none)
          (parseCliOptions args fe).host (parseCliOptions args fe).port servers) ∧
    (∀ cf cfg servers, (parseCliOptions args fe).config = some cf →
      lc cf = some cfg →
      args.help = false → args.positionals ≠ [] →
      serversOfPositionals args.positionals (parseCliOptions args fe).mcpVersion =
        some servers →
      mainOutcome args fe lc =
        .started (serverInfoOf (parseCliOptions args fe) (some cfg))
          (parseCliOptions args fe).host (parseCliOptions args fe).port servers) := by
  have hhelp : (parseCliOptions args fe).help = args.help := rfl
  have hpos : (parseCliOptions args fe).mcpServers = args.positionals := rfl
  refine ⟨?_, ?_, ?_, ?_, ?_, ?_, ?_, ?_, ?_, ?_⟩
  · intro h
    unfold parseCliOptions
    rw [h]
    rfl
  · intro h
    unfold parseCliOptions
    rw [h]
    rfl
  · intro h
    unfold parseCliOptions
    rw [h]
    rfl
  · intro h
    unfold parseCliOptions
    rw [h]
    rfl
  · intro hh hc
    rw [mainOutcome_none args fe lc hc]
    unfold mainWithConfig
    rw [hhelp, hh]
    rfl
  · intro hh hp hc
    rw [mainOutcome_none args fe lc hc]
    unfold mainWithConfig
    rw [hhelp, hh, hpos, hp]
    rfl
  · intro cf hc hlc
    exact mainOutcome_loadFail args fe lc cf hc hlc
  · intro cf cfg hc hlc hor
    rw [mainOutcome_some args fe lc cf cfg hc hlc]
    unfold mainWithConfig
    rcases hor with hh | hp
    · rw [hhelp, hh]
      rfl
    · rw [hhelp, hpos, hp]
      rcases args.help with _ | _ <;> rfl
  · intro servers hc hh hp hs
    rw [mainOutcome_none args fe lc hc]
    unfold mainWithConfig
    rw [hhelp, hh, hpos]
    rcases hpx : args.positionals with _ | ⟨a, as⟩
    · exact absurd hpx hp
    · rw [hpx] at hs
      simp only [List.isEmpty_cons, Bool.false_or, Bool.false_eq_true, if_false, hs]
  · intro cf cfg servers hc hlc hh hp hs
    rw [mainOutcome_some args fe lc cf cfg hc hlc]
    unfold mainWithConfig
    rw [hhelp, hh, hpos]
    rcases hpx : args.positionals with _ | ⟨a, as⟩
    · exact absurd hpx hp
    · rw [hpx] at hs
      simp only [List.isEmpty_cons, Bool.false_or, Bool.false_eq_true, if_false, hs]

/-- C8 witness: on the concrete run of `c8_counterexample`, the
amended positional-precedence clause produces the started server. -/
theorem c8_cli_behaviour_witness :
    mainOutcome args8 (fun _ => true) lc8 =
      .started (serverInfoOf (parseCliOptions args8 (fun _ => true)) (some cfg8))
        (parseCliOptions args8 (fun _ => true)).host
        (parseCliOptions args8 (fun _ => true)).port
        [⟨"http://a.example/mcp", some "a.example", some "1.0.0", none⟩] :=
  (c8_cli_behaviour args8 (fun _ => true) lc8).2.2.2.2.2.2.2.2.2
    "config.yaml" cfg8 [⟨"http://a.example/mcp", some "a.example", some "1.0.0", none⟩]
    rfl rfl rfl (by simp [args8]) rfl

/-- C4 counterexample: in the world `wRetry` (upstream `http://a/`
refuses its first attempt), the whole startup trace of
`main` with upstreams `[http://a/, http://b/]` is: `http://a/` attempt
0 at 0 ms, retry attempt 1 at 10000 ms, connected at 10000 ms — and
only then `http://b/`'s first attempt and the HTTP listener bind, both
at 10000 ms. The listener is bound after the failed upstream finally
connected, not while it was still retrying, because `loadTargets`
awaits `addTargetServer` per upstream and `main` awaits `loadTargets`
before `server.start()`. -/
theorem c4_counterexample :
    mainTimeline wRetry 5 ["http://a/", "http://b/"] =
      ([MainEv.connectAttempt "http://a/" 0 0,
        MainEv.connectAttempt "http://a/" 1 10000,
        MainEv.connected "http://a/" 10000,
        MainEv.connectAttempt "http://b/" 0 10000,
        MainEv.connected "http://b/" 10000,
        MainEv.listenBound 10000], some 10000) := rfl

/-- C4 amended: a failed upstream connection is retried on the fixed
10-second schedule until it succeeds (attempt k at 10000·k ms, success
at the first accepting attempt) — but the retry loop does block
startup: with upstreams `[u1, u2]`, every event of `u2` and the
binding of the HTTP listener happen only after `u1`'s retry loop has
completed, the listener binding last of all. -/
theorem c4_retry_schedule (w : UpstreamWorld) (u1 u2 : String) (fuel n t2 : Nat)
    (hfail : ∀ k, k < n → w.connectOk u1 k = false)
    (hok : w.connectOk u1 n = true) (hfuel : n < fuel)
    (h2 : (addTargetServerTimeline w u2 (10000 * n) 0 fuel).2 = some t2) :
    addTargetServerTimeline w u1 0 0 fuel =
      ((List.range n).map (fun k => MainEv.connectAttempt u1 k (10000 * k)) ++
       [MainEv.connectAttempt u1 n (10000 * n), MainEv.connected u1 (10000 * n)],
       some (10000 * n)) ∧
    mainTimeline w fuel [u1, u2] =
      ((addTargetServerTimeline w u1 0 0 fuel).1 ++
        (addTargetServerTimeline w u2 (10000 * n) 0 fuel).1 ++
        [MainEv.listenBound t2], some t2) := by
  have h1 := addTimeline_first_success w u1 0 n fuel 0 hfuel
    (by intro k hk; simpa using hfail k hk) (by simpa using hok)
  have h1s : addTargetServerTimeline w u1 0 0 fuel =
      ((List.range n).map (fun k => MainEv.connectAttempt u1 k (10000 * k)) ++
       [MainEv.connectAttempt u1 n (10000 * n), MainEv.connected u1 (10000 * n)],
       some (10000 * n)) := by
    rw [h1]
    simp
  refine ⟨h1s, ?_⟩
  unfold mainTimeline loadTargetsTimeline
  rw [h1s]
  rcases hb : addTargetServerTimeline w u2 (10000 * n) 0 fuel with ⟨evs2, done2⟩
  rw [hb] at h2
  simp only at h2
  subst h2
  simp [h1s, hb, loadTargetsTimeline]

/-- C4 witness: in `wRetry`, upstream `http://a/` succeeds at attempt
1, so its attempts run at 0 ms and 10000 ms; upstream `http://b/` and
the listener bind follow at 10000 ms. -/
theorem c4_retry_schedule_witness :
    addTargetServerTimeline wRetry "http://a/" 0 0 5 =
      ((List.range 1).map (fun k => MainEv.connectAttempt "http://a/" k (10000 * k)) ++
       [MainEv.connectAttempt "http://a/" 1 (10000 * 1),
        MainEv.connected "http://a/" (10000 * 1)],
       some (10000 * 1)) ∧
    mainTimeline wRetry 5 ["http://a/", "http://b/"] =
      ((addTargetServerTimeline wRetry "http://a/" 0 0 5).1 ++
        (addTargetServerTimeline wRetry "http://b/" (10000 * 1) 0 5).1 ++
        [MainEv.listenBound 10000], some 10000) :=
  c4_retry_schedule wRetry "http://a/" "http://b/" 5 1 10000
    (fun k hk => by
      have hk0 : k = 0 := by omega
      subst hk0
      rfl)
    rfl (by omega) rfl

/-- C9 witness: the single entry of `reg9` serializes with `url` and
`clientInfo` members and no top-level `name`. -/
theorem c9_list_targets_witness :
    (TargetEntry.toJson ⟨⟨"upstream-one", "1.0.0", ""⟩, "http://u/"⟩).getField "url" =
      some (.str "http://u/") ∧
    (TargetEntry.toJson ⟨⟨"upstream-one", "1.0.0", ""⟩, "http://u/"⟩).getField
      "clientInfo" =
      some (Implementation.toJson ⟨"upstream-one", "1.0.0", ""⟩) ∧
    (TargetEntry.toJson ⟨⟨"upstream-one", "1.0.0", ""⟩, "http://u/"⟩).getField "name" =
      none :=
  (c9_list_targets reg9).2.2.2.2 ⟨⟨"upstream-one", "1.0.0", ""⟩, "http://u/"⟩
    (by simp [listTargetClients, reg9])

end Mcg
